import Mathlib

/-!
Verification of the GUI-thread task bridge and its surrounding plumbing in
the freecad-mcp repository (addon/FreeCADMCP/rpc_server/rpc_server.py and
addon/FreeCADMCP/rpc_server/parts_library.py).

The development shallowly embeds the Python source: pure code becomes Lean
functions, the queue/pump machinery becomes an explicit state machine, and
host facilities the source calls (the FreeCAD document API, Python's
ipaddress / base64 / functools.cache / os.path modules, Qt timers) are
modelled as explicit parameters or small executable models, each documented
at its definition.
-/

/-! ## Python values returned by WorkItem closures

A WorkItem in the source is a zero-argument closure put on
`rpc_request_queue`; when the pump calls it, it returns a Python value.
The closures the RPC front actually submits return `True`, `False`
(the screenshot capability check) or an error string; `None` is what a
Python function returns when it falls off the end. -/

inductive RVal
  | vtrue
  | vfalse
  | vstr (s : String)
  | vnone
  deriving DecidableEq, Repr

/-- Ghost identity of the RPC front thread that submitted a WorkItem.  The
source attaches no such identity to queue items (this is exactly what the
pairing claims are about); the tag exists only so that theorems can speak
about which caller produced and which caller received an item. -/
inductive CallerId
  | A
  | B
  deriving DecidableEq, Repr

/-- What happens when the pump calls `task()`: the closure either returns a
value or raises an exception carrying a message. -/
inductive TaskOutcome
  | ret (v : RVal)
  | exn (e : String)
  deriving DecidableEq, Repr

/-- A queued WorkItem: its (ghost) submitter plus what its closure does when
executed.  The source's queue item is the bare closure — there is no
correlation field. -/
structure WItem where
  owner : CallerId
  outcome : TaskOutcome
  deriving DecidableEq, Repr

def WItem.isExn (w : WItem) : Bool :=
  match w.outcome with
  | .exn _ => true
  | .ret _ => false

/-- Shallow embedding of `process_gui_tasks` (rpc_server.py lines 143-149):

    while not rpc_request_queue.empty():
        task = rpc_request_queue.get()
        res = task()
        if res is not None:
            rpc_response_queue.put(res)
    QtCore.QTimer.singleShot(500, process_gui_tasks)

Input: the request queue and the response queue.  Output: the request queue
and response queue after the drain, the exception that escaped the loop (if
a task raised — there is no try/except in the source, so the exception
propagates out of `process_gui_tasks` into the Qt timer callback), and
whether the trailing `QTimer.singleShot` re-arming line was reached.
Response entries keep the ghost owner of the WorkItem that produced them;
the source pushes the bare value. -/
def process_gui_tasks :
    List WItem → List (CallerId × RVal) →
    List WItem × List (CallerId × RVal) × Option String × Bool
  | [], respQ => ([], respQ, none, true)
  | w :: rest, respQ =>
    match w.outcome with
    | .exn e => (rest, respQ, some e, false)
    | .ret v =>
      process_gui_tasks rest
        (if v = RVal.vnone then respQ else respQ ++ [(w.owner, v)])

/-- The response-queue entries a list of WorkItems contributes when drained
by `process_gui_tasks` without any of them raising: one entry per item whose
closure returns a non-None value, in execution order. -/
def pushesOf (q : List WItem) : List (CallerId × RVal) :=
  q.filterMap fun w =>
    match w.outcome with
    | .ret v => if v = RVal.vnone then none else some (w.owner, v)
    | .exn _ => none

/-! ## The bridge as a state machine

The two module-level queues (rpc_server.py lines 139-140) plus the
per-caller bookkeeping needed to state pairing properties.  `recvA`/`recvB`
record, in order, the items each caller's blocking
`rpc_response_queue.get()` calls have returned. -/

structure BState where
  reqQ : List WItem
  respQ : List (CallerId × RVal)
  recvA : List (CallerId × RVal)
  recvB : List (CallerId × RVal)
  deriving DecidableEq, Repr

def BState.init : BState := ⟨[], [], [], []⟩

/-- Scheduler events: an RPC front thread enqueues a WorkItem
(`rpc_request_queue.put`, e.g. rpc_server.py line 245), the GUI timer fires
one drain of `process_gui_tasks`, or a front thread's blocking
`rpc_response_queue.get()` (line 246) completes.  A `get` on an empty
response queue leaves the state unchanged: the thread is still blocked. -/
inductive Ev
  | submit (c : CallerId) (o : TaskOutcome)
  | pump
  | get (c : CallerId)
  deriving DecidableEq, Repr

def stepEv (s : BState) : Ev → BState
  | .submit c o => { s with reqQ := s.reqQ ++ [⟨c, o⟩] }
  | .pump =>
    let r := process_gui_tasks s.reqQ s.respQ
    { s with reqQ := r.1, respQ := r.2.1 }
  | .get c =>
    match s.respQ with
    | [] => s
    | r :: rest =>
      match c with
      | .A => { s with respQ := rest, recvA := s.recvA ++ [r] }
      | .B => { s with respQ := rest, recvB := s.recvB ++ [r] }

def runSchedule (evs : List Ev) : BState := evs.foldl stepEv BState.init

/-- One serialized submit/await round: caller `c` enqueues a WorkItem whose
closure returns `v`, the GUI timer drains the queue, and `c`'s blocking get
completes — with no other caller interleaved.  This is the discipline under
which the source's token-free twin-queue pairing is correct. -/
def runRound (s : BState) (c : CallerId) (v : RVal) : BState :=
  stepEv (stepEv (stepEv s (.submit c (.ret v))) .pump) (.get c)

def runRounds (s : BState) : List (CallerId × RVal) → BState
  | [] => s
  | (c, v) :: rest => runRounds (runRound s c v) rest

/-! ## The result wait performed by the RPC front

Every bridge-routed method in `FreeCADRPC` awaits its result with a bare
`rpc_response_queue.get()` — Python's `queue.Queue.get(block=True,
timeout=None)` (rpc_server.py lines 246, 260, 272, 280, 301, 326, 361,
373). -/

structure GetCall where
  blocking : Bool
  timeout : Option Nat
  deriving DecidableEq, Repr

/-- The call configuration of a bare `Queue.get()`: block=True, timeout=None
(Python stdlib defaults). -/
def queue_get_default : GetCall := ⟨true, none⟩

/-- The result-wait call site of each bridge-routed RPC method, by method
name (get_active_screenshot performs two waits: the capability check and the
capture). -/
def rpc_await_calls : List (String × GetCall) :=
  [("create_document", queue_get_default),
   ("create_object", queue_get_default),
   ("edit_object", queue_get_default),
   ("delete_object", queue_get_default),
   ("execute_code", queue_get_default),
   ("insert_part_from_library", queue_get_default),
   ("get_active_screenshot.check", queue_get_default),
   ("get_active_screenshot.capture", queue_get_default)]

/-- Liveness model of Python's `Queue.get`: whether the call ever returns
control to the caller (with an item or by raising `queue.Empty`), given
whether an item ever arrives on the queue.  A blocking get with no timeout
returns only if an item arrives. -/
def get_call_returns (c : GetCall) (arrives : Bool) : Bool :=
  if arrives then true
  else if !c.blocking then true
  else c.timeout.isSome

/-! ## Python values and the FreeCAD host, for `set_object_property`

`set_object_property` (rpc_server.py lines 160-235) assigns a dict of
property values onto a live document object, with special cases for
Placement, Vector-valued properties, object references, reference lists,
and ViewObject colors.  The live FreeCAD object and the behaviour of
`setattr` on it are host facilities, modelled abstractly below; the
dispatch and exception structure of the Python function is embedded
faithfully. -/

inductive PValue
  | pstr (s : String)
  | pint (n : Int)
  | pbool (b : Bool)
  | pnone
  | pdict (entries : List (String × PValue))
  | plist (items : List PValue)
  | ptuple (items : List PValue)

def PValue.isDict : PValue → Bool
  | .pdict _ => true
  | _ => false

def PValue.isStr : PValue → Bool
  | .pstr _ => true
  | _ => false

def PValue.isList : PValue → Bool
  | .plist _ => true
  | _ => false

def PValue.isListOrTuple : PValue → Bool
  | .plist _ => true
  | .ptuple _ => true
  | _ => false

def PValue.dictEntries : PValue → List (String × PValue)
  | .pdict e => e
  | _ => []

def PValue.listItems : PValue → List PValue
  | .plist l => l
  | .ptuple l => l
  | _ => []

/-- Python dict lookup by key (first binding wins; a Python dict has unique
keys). -/
def dictLookup (d : List (String × PValue)) (k : String) : Option PValue :=
  (d.find? fun kv => kv.1 == k).map fun kv => kv.2

/-- Python `d.get(k, default)` on a value known to be a dict. -/
def dictGetD (d : List (String × PValue)) (k : String) (dflt : PValue) : PValue :=
  (dictLookup d k).getD dflt

/-- Python `v.get(k, default)` on an arbitrary value: raises AttributeError
when the receiver is not a dict (as at rpc_server.py line 176, when the
Base/Position entry of a Placement dict is itself not a dict). -/
def pyGet (v : PValue) (k : String) (dflt : PValue) : Except String PValue :=
  match v with
  | .pdict d => .ok (dictGetD d k dflt)
  | _ => .error ("object has no attribute get: " ++ k)

/-- Python `v[i]` on an arbitrary value: raises on a non-sequence receiver
or an out-of-range index. -/
def pyIndex (v : PValue) (i : Nat) : Except String PValue :=
  match v with
  | .plist l | .ptuple l =>
    match l.get? i with
    | some x => .ok x
    | none => .error "index out of range"
  | _ => .error "object is not subscriptable"

/-- Python `float(v)`: model of the builtin conversion.  Numeric and boolean
values convert; other values raise.  (Numeric strings, which Python would
also accept, do not occur in the claims and are not modelled.) -/
def pyFloat (v : PValue) : Except String PValue :=
  match v with
  | .pint _ => .ok v
  | .pbool _ => .ok v
  | _ => .error "could not convert value to float"

/-- The value handed to the host `setattr`, after the Python function's own
value construction: a raw value, a constructed FreeCAD.Vector, a constructed
FreeCAD.Placement, a resolved document-object reference, a resolved
reference list, or a 4-float colour tuple. -/
inductive AttrValue
  | raw (v : PValue)
  | vec (x y z : PValue)
  | placed (px py pz ax ay az angle : PValue)
  | objRef (name : String)
  | refList (refs : List (String × PValue))
  | rgba (r g b a : PValue)

/-- A live document object as `set_object_property` observes it:
`obj.PropertiesList`, which of its properties currently hold a
FreeCAD.Vector (the `isinstance(getattr(obj, prop), FreeCAD.Vector)` test at
line 191), and whether `hasattr(obj, "References")` holds (line 469). -/
structure HostObj where
  propertiesList : List String
  vectorProps : List String
  hasReferencesAttr : Bool
  deriving DecidableEq, Repr

/-- A live document: its objects by name.  `getObject` yields the object or
None. -/
structure HostDoc where
  objects : List (String × HostObj)

def HostDoc.getObject (d : HostDoc) (n : String) : Option HostObj :=
  (d.objects.find? fun kv => kv.1 == n).map fun kv => kv.2

/-- The FreeCAD host as the embedded functions use it: the open documents,
and the behaviour of `setattr` on a document object and on its ViewObject —
`some msg` means the assignment raises an exception whose `str(e)` is
`msg`, `none` means it succeeds.  The host decides this; the Python source
only catches whatever comes out. -/
structure GuiHost where
  docs : List (String × HostDoc)
  setattrFails : String → String → AttrValue → Option String
  viewSetattrFails : String → String → AttrValue → Option String

def GuiHost.getDocument (h : GuiHost) (n : String) : Option HostDoc :=
  (h.docs.find? fun kv => kv.1 == n).map fun kv => kv.2

/-- `setattr(obj, prop, value)` on the host: succeeds or raises. -/
def hostSet (h : GuiHost) (objName prop : String) (v : AttrValue) :
    Except String Unit :=
  match h.setattrFails objName prop v with
  | some e => .error e
  | none => .ok ()

/-- `setattr(obj.ViewObject, prop, value)` on the host. -/
def hostViewSet (h : GuiHost) (objName prop : String) (v : AttrValue) :
    Except String Unit :=
  match h.viewSetattrFails objName prop v with
  | some e => .error e
  | none => .ok ()

/-- The reference-resolution loop shared by the References branches
(rpc_server.py lines 209-215 and 470-476): unpack each element as a
(ref_name, face) pair, look the name up in the document, raise ValueError
when it is missing. -/
def resolveRefPairs (doc : HostDoc) : List PValue →
    Except String (List (String × PValue))
  | [] => .ok []
  | item :: rest =>
    match item with
    | .plist [.pstr ref_name, face] | .ptuple [.pstr ref_name, face] =>
      if (doc.getObject ref_name).isSome then
        (resolveRefPairs doc rest).map fun refs => (ref_name, face) :: refs
      else
        .error ("Referenced object '" ++ ref_name ++ "' not found.")
    | _ => .error "cannot unpack reference entry"

/-- The `for k, v in val.items()` loop of the ViewObject branch
(rpc_server.py lines 224-229): the first raising assignment escapes the
loop. -/
def viewAssignLoop (h : GuiHost) (objName : String) :
    List (String × PValue) → Except String Unit
  | [] => .ok ()
  | (k, v) :: rest => do
    (if k = "ShapeColor" then do
      let r ← pyIndex v 0 >>= pyFloat
      let g ← pyIndex v 1 >>= pyFloat
      let b ← pyIndex v 2 >>= pyFloat
      let a ← pyIndex v 3 >>= pyFloat
      hostViewSet h objName k (.rgba r g b a)
    else
      hostViewSet h objName k (.raw v))
    viewAssignLoop h objName rest

/-- The body of one iteration of `set_object_property`'s loop (rpc_server.py
lines 164-232), without the enclosing try/except: returns `.error msg` when
the iteration raises an exception with message `msg`. -/
def setOneProp (h : GuiHost) (doc : HostDoc) (objName : String)
    (obj : HostObj) (prop : String) (val : PValue) : Except String Unit :=
  if prop ∈ obj.propertiesList then
    if prop = "Placement" ∧ val.isDict then do
      let d := val.dictEntries
      let pos :=
        match dictLookup d "Base" with
        | some v => v
        | none =>
          match dictLookup d "Position" with
          | some v => v
          | none => PValue.pdict []
      let rot := dictGetD d "Rotation" (PValue.pdict [])
      let px ← pyGet pos "x" (.pint 0)
      let py ← pyGet pos "y" (.pint 0)
      let pz ← pyGet pos "z" (.pint 0)
      let axisd ← pyGet rot "Axis" (.pdict [])
      let ax ← pyGet axisd "x" (.pint 0)
      let ay ← pyGet axisd "y" (.pint 0)
      let az ← pyGet axisd "z" (.pint 1)
      let angle ← pyGet rot "Angle" (.pint 0)
      hostSet h objName prop (.placed px py pz ax ay az angle)
    else if prop ∈ obj.vectorProps ∧ val.isDict then
      hostSet h objName prop
        (.vec (dictGetD val.dictEntries "x" (.pint 0))
          (dictGetD val.dictEntries "y" (.pint 0))
          (dictGetD val.dictEntries "z" (.pint 0)))
    else if prop ∈ ["Base", "Tool", "Source", "Profile"] ∧ val.isStr then
      match val with
      | .pstr s =>
        if (doc.getObject s).isSome then hostSet h objName prop (.objRef s)
        else .error ("Referenced object '" ++ s ++ "' not found.")
      | _ => .ok ()
    else if prop = "References" ∧ val.isList then do
      let refs ← resolveRefPairs doc val.listItems
      hostSet h objName prop (.refList refs)
    else
      hostSet h objName prop (.raw val)
  else if prop = "ShapeColor" ∧ val.isListOrTuple then do
    let r ← pyIndex val 0 >>= pyFloat
    let g ← pyIndex val 1 >>= pyFloat
    let b ← pyIndex val 2 >>= pyFloat
    let a ← pyIndex val 3 >>= pyFloat
    hostViewSet h objName prop (.rgba r g b a)
  else if prop = "ViewObject" ∧ val.isDict then
    viewAssignLoop h objName val.dictEntries
  else
    hostSet h objName prop (.raw val)

/-- Shallow embedding of `set_object_property` (rpc_server.py lines
160-235).  Each iteration is wrapped in try/except: a raising iteration is
logged to the console (`Property '<prop>' assignment error: <e>`) and the
loop continues with the next property.  The function itself returns None in
Python; the embedding returns the console error log. -/
def set_object_property (h : GuiHost) (doc : HostDoc) (objName : String)
    (obj : HostObj) (properties : List (String × PValue)) : List String :=
  properties.foldl
    (fun log pv =>
      match setOneProp h doc objName obj pv.1 pv.2 with
      | .ok _ => log
      | .error e =>
        log ++ ["Property '" ++ pv.1 ++ "' assignment error: " ++ e])
    []

/-- Shallow embedding of `FreeCADRPC._edit_object_gui` (rpc_server.py lines
456-488).  Returns the value the closure returns to the pump (`True` on
success, the error string otherwise) together with the console error log
produced by `set_object_property` (informational console messages are not
modelled).  The References pre-pass (lines 469-482) raises inside this
function's own try block, so its ValueError is converted to an error return;
exceptions inside `set_object_property` never reach this level. -/
def _edit_object_gui (h : GuiHost) (doc_name obj_name : String)
    (properties : List (String × PValue)) : RVal × List String :=
  match h.getDocument doc_name with
  | none => (.vstr ("Document '" ++ doc_name ++ "' not found.\n"), [])
  | some doc =>
    match doc.getObject obj_name with
    | none =>
      (.vstr ("Object '" ++ obj_name ++ "' not found in document '" ++
        doc_name ++ "'.\n"), [])
    | some obj =>
      if obj.hasReferencesAttr ∧ (dictLookup properties "References").isSome then
        match dictLookup properties "References" with
        | none => (.vtrue, [])
        | some refsVal =>
          match refsVal with
          | .plist items | .ptuple items =>
            (match resolveRefPairs doc items with
             | .error e => (.vstr e, [])
             | .ok refs =>
               match hostSet h obj_name "References" (.refList refs) with
               | .error e => (.vstr e, [])
               | .ok _ =>
                 (.vtrue,
                  set_object_property h doc obj_name obj
                    (properties.filter fun kv => ¬ kv.1 = "References")))
          | _ => (.vstr "References value is not iterable", [])
      else
        (.vtrue, set_object_property h doc obj_name obj properties)

/-- The structured record a bridge-routed RPC method returns to its network
caller: `{"success": True, "object_name": ...}` or
`{"success": False, "error": ...}`. -/
structure RpcResult where
  success : Bool
  object_name : Option String
  error : Option String
  deriving DecidableEq, Repr

/-- Shallow embedding of `FreeCADRPC.edit_object` (rpc_server.py lines
266-276) composed with the GUI-side closure it submits, under serialized
bridge access (the blocking get returns this closure's own result).  The
method extracts `properties.get("Properties", {})`, submits
`_edit_object_gui`, and translates `True` into a success record and any
other returned value into `{"success": False, "error": res}`. -/
def edit_object (h : GuiHost) (doc_name obj_name : String)
    (properties : List (String × PValue)) : RpcResult × List String :=
  let props := (dictGetD properties "Properties" (PValue.pdict [])).dictEntries
  let r := _edit_object_gui h doc_name obj_name props
  (match r.1 with
   | .vtrue => ⟨true, some obj_name, none⟩
   | .vstr e => ⟨false, none, some e⟩
   | _ => ⟨false, none, none⟩,
   r.2)

/-! ## Python string primitives

Executable models of the Python string methods the source uses
(`str.split` with a separator, `str.startswith`, `str.endswith`, and the
digit parsing inside `int`), defined over the character list so that
concrete instances evaluate inside the kernel. -/

def pySplitAux (sep : Char) : List Char → List Char → List String
  | [], cur => [String.mk cur.reverse]
  | c :: rest, cur =>
    if c = sep then String.mk cur.reverse :: pySplitAux sep rest []
    else pySplitAux sep rest (c :: cur)

/-- Python `s.split(sep)` for a one-character separator; `"a,,b"` splits
into `["a", "", "b"]` and the empty string into `[""]`. -/
def pySplit (sep : Char) (s : String) : List String := pySplitAux sep s.data []

/-- Python `s.startswith(p)`. -/
def startswith (s p : String) : Bool := p.data.isPrefixOf s.data

/-- Python `s.endswith(p)`. -/
def endswith (s p : String) : Bool := p.data.isSuffixOf s.data

def pyIsDigit (c : Char) : Bool := 48 ≤ c.toNat && c.toNat ≤ 57

/-- The numeric value of a nonempty all-digit character list (the digit
strings Python `int` accepts without sign or whitespace). -/
def decDigits : List Char → Option Nat
  | [] => none
  | cs =>
    if cs.all pyIsDigit then
      some (cs.foldl (fun n c => n * 10 + (c.toNat - 48)) 0)
    else none

/-! ## The IP allow-list (rpc_server.py lines 71-136)

`FilteredXMLRPCServer.verify_request` accepts a connection iff the caller's
address parses and lies in at least one allowed network.
`validate_allowed_ips` validates a comma-separated configuration string,
and `_parse_allowed_ips` turns its valid entries into network objects,
logging a warning per error.

The stdlib `ipaddress` module is external; it is modelled below for the
IPv4 dotted-quad fragment (with optional /prefix), which is what the
repository's defaults, dialogs and the claims exercise.  IPv6 textual forms
are not modelled and parse as invalid. -/

/-- One octet of a dotted quad as `ipaddress` accepts it: one to three
decimal digits, value at most 255, no leading zero. -/
def parseOctet (s : String) : Option Nat :=
  match decDigits s.data with
  | none => none
  | some n =>
    if s.data.length ≤ 3 ∧ n ≤ 255 ∧
        (s.data.length = 1 ∨ ¬ s.data.head? = some '0') then some n
    else none

/-- Model of `ipaddress.ip_address` on IPv4 text: the 32-bit value of a
dotted quad, or none when the text does not parse (Python raises
ValueError, which `verify_request` catches). -/
def ip_address_parse (s : String) : Option Nat :=
  match pySplit '.' s with
  | [a, b, c, d] => do
    let a ← parseOctet a
    let b ← parseOctet b
    let c ← parseOctet c
    let d ← parseOctet d
    pure (((a * 256 + b) * 256 + c) * 256 + d)
  | _ => none

/-- The network address of `addr` under a prefix of length `p`: the low
`32 - p` bits cleared. -/
def maskBits (addr p : Nat) : Nat := addr / 2 ^ (32 - p) * 2 ^ (32 - p)

def parsePrefixLen (s : String) : Option Nat :=
  match decDigits s.data with
  | none => none
  | some n =>
    if n ≤ 32 ∧ (s.data.length = 1 ∨ ¬ s.data.head? = some '0') then some n
    else none

structure IpNetwork where
  netAddr : Nat
  prefixLen : Nat
  deriving DecidableEq, Repr

/-- Model of `ipaddress.ip_network(entry, strict=False)` on IPv4 text: a
dotted quad with an optional /prefix; strict=False masks host bits off. -/
def ip_network_parse (s : String) : Option IpNetwork :=
  match pySplit '/' s with
  | [ip] => (ip_address_parse ip).map fun a => ⟨maskBits a 32, 32⟩
  | [ip, p] => do
    let a ← ip_address_parse ip
    let pl ← parsePrefixLen p
    pure ⟨maskBits a pl, pl⟩
  | _ => none

/-- Model of `addr in network`: the address masked to the network's prefix
equals the network address. -/
def addrInNetwork (addr : Nat) (net : IpNetwork) : Bool :=
  maskBits addr net.prefixLen == net.netAddr

/-- Shallow embedding of `FilteredXMLRPCServer.verify_request`
(rpc_server.py lines 78-90): parse the caller's IP; inside the try, return
True on the first allowed network containing it; on a parse error
(ValueError) fall through; reaching the end logs a rejection warning and
returns False.  Returns (accepted, console warnings). -/
def verify_request (allowed_networks : List IpNetwork) (client_ip : String) :
    Bool × List String :=
  match ip_address_parse client_ip with
  | some addr =>
    if allowed_networks.any (addrInNetwork addr) then (true, [])
    else (false, ["MCP RPC: Rejected connection from " ++ client_ip])
  | none => (false, ["MCP RPC: Rejected connection from " ++ client_ip])

/-- Modelled from the spec: the request pipeline of the stdlib
SimpleXMLRPCServer (not part of this repository) calls `verify_request` for
every incoming connection before any request data is read or any method
dispatched; a rejected connection is closed without dispatch — "reject (and
log) otherwise, before any method dispatch occurs.  This check must run for
every connection attempt".  `workItemsOfCall` is how many WorkItems the
requested method would enqueue; a rejected connection enqueues none. -/
def handle_connection (allowed_networks : List IpNetwork) (client_ip : String)
    (workItemsOfCall : Nat) : Nat × List String :=
  let v := verify_request allowed_networks client_ip
  if v.1 then (workItemsOfCall, v.2) else (0, v.2)

/-! ## validate_allowed_ips and its well-formedness regex

`_COMMA_SEP_RE = ^\s*[^,\s]+(\s*,\s*[^,\s]+)*\s*$` (rpc_server.py line 93)
is realized as the equivalent four-state automaton: leading whitespace,
inside an entry, whitespace after an entry, after a separating comma.
Accepting states are "inside an entry" and "whitespace after an entry". -/

/-- Python `\s` on ASCII text. -/
def pyIsSpace (c : Char) : Bool :=
  c = ' ' || c = '\t' || c = '\n' || c = '\r' || c = '\x0b' || c = '\x0c'

/-- A character an entry may contain: `[^,\s]`. -/
def isEntryChar (c : Char) : Bool := !(c = ',') && !pyIsSpace c

inductive CsState
  | leadingWs
  | inEntry
  | afterEntryWs
  | afterComma
  deriving DecidableEq, Repr

def csStep (st : CsState) (c : Char) : Option CsState :=
  match st with
  | .leadingWs =>
    if pyIsSpace c then some .leadingWs
    else if isEntryChar c then some .inEntry
    else none
  | .inEntry =>
    if isEntryChar c then some .inEntry
    else if pyIsSpace c then some .afterEntryWs
    else if c = ',' then some .afterComma
    else none
  | .afterEntryWs =>
    if pyIsSpace c then some .afterEntryWs
    else if c = ',' then some .afterComma
    else none
  | .afterComma =>
    if pyIsSpace c then some .afterComma
    else if isEntryChar c then some .inEntry
    else none

/-- `_COMMA_SEP_RE.match(s)` as a Bool. -/
def commaSepMatch (s : String) : Bool :=
  match s.data.foldl (fun st c => st.bind fun st => csStep st c)
      (some CsState.leadingWs) with
  | some .inEntry => true
  | some .afterEntryWs => true
  | _ => false

/-- Python `str.strip()`. -/
def pyStrip (s : String) : String :=
  String.mk (((s.data.dropWhile pyIsSpace).reverse.dropWhile pyIsSpace).reverse)

/-- One iteration of the entry-validation loop of `validate_allowed_ips`
(rpc_server.py lines 121-127): strip the entry, then either append it to
the valid list or append an error message. -/
def validateStep (acc : List String × List String) (entry : String) :
    List String × List String :=
  let entry := pyStrip entry
  match ip_network_parse entry with
  | some _ => (acc.1 ++ [entry], acc.2)
  | none => (acc.1, acc.2 ++ ["Invalid IP/subnet: '" ++ entry ++ "'"])

/-- Shallow embedding of `validate_allowed_ips` (rpc_server.py lines
96-128): blank input and input failing the comma-separation regex fail as a
whole with a single message and an empty valid list; otherwise each
comma-separated entry is stripped and validated individually.  Returns
(valid, errors). -/
def validate_allowed_ips (allowed_ips_str : String) :
    List String × List String :=
  if allowed_ips_str = "" ∨ pyStrip allowed_ips_str = "" then
    ([], ["Input must not be empty."])
  else if ¬ commaSepMatch allowed_ips_str then
    ([],
     ["Malformed list — check for leading/trailing commas, double commas, or missing separators."])
  else
    (pySplit ',' allowed_ips_str).foldl validateStep ([], [])

/-- Shallow embedding of `_parse_allowed_ips` (rpc_server.py lines
131-136): validate, log one warning per error, and build network objects
from the valid entries.  Returns (networks, console warnings). -/
def _parse_allowed_ips (allowed_ips_str : String) :
    List IpNetwork × List String :=
  let ve := validate_allowed_ips allowed_ips_str
  (ve.1.filterMap ip_network_parse,
   ve.2.map fun msg => "MCP RPC: " ++ msg ++ ", skipping")

/-! ## Screenshot capture (rpc_server.py lines 338-387)

`get_active_screenshot` submits a first WorkItem running
`check_view_supports_screenshots`; only when its result is truthy does it
create a temporary file, submit a second WorkItem running
`_save_active_screenshot`, and — when that returns True — read the file,
base64-encode it, delete it and return the encoding.  On any failure it
returns None, deleting the temporary file when one was created. -/

/-- The base64 alphabet, as stdlib `base64.b64encode` uses it. -/
def b64Chars : List Char :=
  "ABCDEFGHIJKLMNOPQRSTUVWXYZabcdefghijklmnopqrstuvwxyz0123456789+/".data

def b64CharAt (i : Nat) : Char := b64Chars.getD i '='

/-- Model of stdlib `base64.b64encode(...).decode("utf-8")` on a byte
list. -/
def b64encode : List Nat → String
  | [] => ""
  | [a] =>
    String.mk [b64CharAt (a / 4), b64CharAt (a % 4 * 16)] ++ "=="
  | [a, b] =>
    String.mk [b64CharAt (a / 4), b64CharAt (a % 4 * 16 + b / 16),
      b64CharAt (b % 16 * 4)] ++ "="
  | a :: b :: c :: rest =>
    String.mk [b64CharAt (a / 4), b64CharAt (a % 4 * 16 + b / 16),
      b64CharAt (b % 16 * 4 + c / 64), b64CharAt (c % 64)] ++ b64encode rest

/-- The host behaviour `get_active_screenshot` depends on: what the
capability-check WorkItem returns, what `_save_active_screenshot` returns
(True, or the error string its own try/except produces), and the bytes the
capture writes into the temporary file. -/
structure ScreenshotHost where
  checkResult : RVal
  saveResult : RVal
  imageBytes : List Nat

/-- What one call of `get_active_screenshot` did: the value returned to the
RPC caller, how many WorkItems were submitted, whether a temporary file was
created, and whether it still exists afterwards. -/
structure ScreenshotRun where
  result : Option String
  submittedTasks : Nat
  tmpCreated : Bool
  tmpRemains : Bool
  deriving DecidableEq, Repr

/-- Python truthiness of a closure result, as `if not supports_screenshots`
tests it. -/
def rvalTruthy : RVal → Bool
  | .vtrue => true
  | .vfalse => false
  | .vstr s => !(s = "")
  | .vnone => false

/-- Shallow embedding of `FreeCADRPC.get_active_screenshot` (rpc_server.py
lines 338-387), under serialized bridge access (each blocking get returns
the just-submitted WorkItem's own result).  View name dispatch, focus
handling and the file reads happen inside the host-modelled WorkItems. -/
def get_active_screenshot (h : ScreenshotHost) : ScreenshotRun :=
  let supports_screenshots := rvalTruthy h.checkResult
  if ¬ supports_screenshots then
    { result := none, submittedTasks := 1, tmpCreated := false,
      tmpRemains := false }
  else
    match h.saveResult with
    | .vtrue =>
      { result := some (b64encode h.imageBytes), submittedTasks := 2,
        tmpCreated := true, tmpRemains := false }
    | _ =>
      { result := none, submittedTasks := 2, tmpCreated := true,
        tmpRemains := false }

/-! ## The parts library (parts_library.py)

`insert_part_from_library` joins the caller-supplied relative path onto the
parts-library directory, normalizes it, and raises ValueError before any
filesystem access when the result escapes the library directory or is not a
`.FCStd` file.  `get_parts_list` walks the library once and is wrapped in
`functools.cache`.

`os.path.join` and `os.path.normpath` (posix flavour) are pure string
functions of the stdlib, modelled below; `os.path.exists`, `os.walk` and
`mergeProject` are filesystem/host effects, passed in as parameters. -/

/-- Model of posix `os.path.join` on two components. -/
def posixJoin2 (a b : String) : String :=
  if startswith b "/" then b
  else if a = "" ∨ endswith a "/" then a ++ b
  else a ++ "/" ++ b

/-- The component-collapsing loop of posix `os.path.normpath`: drop empty
and `.` components; a `..` pops the previous component unless the path is
relative and nothing is left to pop, or the previous component is itself an
unpopped `..`; for an absolute path a leading `..` is dropped. -/
def normpathFold (initialSlashes : Nat) (acc : List String) (comp : String) :
    List String :=
  if comp = "" ∨ comp = "." then acc
  else if ¬ comp = ".." ∨ (initialSlashes = 0 ∧ acc = []) ∨
      acc.getLast? = some ".." then
    acc ++ [comp]
  else if ¬ acc = [] then acc.dropLast
  else acc

/-- Model of posix `os.path.normpath` (including the double-slash special
case POSIX allows). -/
def normpath (p : String) : String :=
  if p = "" then "."
  else
    let initialSlashes : Nat :=
      if startswith p "/" then
        if startswith p "//" ∧ ¬ startswith p "///" then 2 else 1
      else 0
    let comps := (pySplit '/' p).foldl (normpathFold initialSlashes) []
    let path := String.mk (List.replicate initialSlashes '/') ++
      String.intercalate "/" comps
    if path = "" then "." else path

inductive PartsLibError
  | valueErr (msg : String)
  | notFoundErr (msg : String)
  deriving DecidableEq, Repr

/-- A filesystem access `insert_part_from_library` performs: an
`os.path.exists` probe or a `mergeProject` open, with the path touched. -/
inductive FsOp
  | probe (path : String)
  | merge (path : String)
  deriving DecidableEq, Repr

def FsOp.path : FsOp → String
  | .probe p => p
  | .merge p => p

/-- `os.path.join(FreeCAD.getUserAppDataDir(), "Mod", "parts_library")`
(parts_library.py line 18). -/
def parts_lib_path (appDataDir : String) : String :=
  posixJoin2 (posixJoin2 appDataDir "Mod") "parts_library"

/-- `os.path.normpath(os.path.join(parts_lib_path, relative_path))`
(parts_library.py line 21). -/
def resolved_part_path (appDataDir relative_path : String) : String :=
  normpath (posixJoin2 (parts_lib_path appDataDir) relative_path)

/-- Shallow embedding of `insert_part_from_library` (parts_library.py lines
8-34).  `appDataDir` models `FreeCAD.getUserAppDataDir()`; `fsHas` models
`os.path.exists`.  Returns the outcome (the merged path on success) and the
filesystem accesses performed, in order. -/
def insert_part_from_library (appDataDir : String) (fsHas : String → Bool)
    (relative_path : String) : Except PartsLibError String × List FsOp :=
  let part_path := resolved_part_path appDataDir relative_path
  if ¬ startswith part_path (normpath (parts_lib_path appDataDir) ++ "/") then
    (.error (.valueErr ("Invalid path: Path traversal attempt detected in '" ++
      relative_path ++ "'")), [])
  else if ¬ endswith part_path ".FCStd" then
    (.error (.valueErr ("Invalid file type: Only .FCStd files are allowed, got '" ++
      relative_path ++ "'")), [])
  else if ¬ fsHas part_path then
    (.error (.notFoundErr ("Not found: " ++ part_path)), [.probe part_path])
  else
    (.ok part_path, [.probe part_path, .merge part_path])

/-- The parts-library filesystem as `get_parts_list` observes it in one
call: whether the library directory exists, and the relative paths of the
files `os.walk` + `os.path.relpath` would report, in walk order. -/
structure PartsFs where
  libPresent : Bool
  files : List String
  deriving DecidableEq, Repr

/-- The `.FCStd` filter of the walk loop (parts_library.py lines 46-50). -/
def walkFCStd (files : List String) : List String :=
  files.filter fun f => endswith f ".FCStd"

/-- Shallow embedding of the body of `get_parts_list` (parts_library.py
lines 38-52), without the cache: raises FileNotFoundError when the library
directory is missing, otherwise walks it and collects `.FCStd` files. -/
def get_parts_list_once (fs : PartsFs) : Except String (List String) :=
  if ¬ fs.libPresent then .error "Not found: parts_library"
  else .ok (walkFCStd fs.files)

/-- Model of the `functools.cache` wrapper on `get_parts_list`: a call with
a populated cache returns the cached list without touching the filesystem;
a call with an empty cache runs the body, caching the result only on
success (a raising call caches nothing). -/
def get_parts_list_call (cache : Option (List String)) (fs : PartsFs) :
    Except String (List String) × Option (List String) :=
  match cache with
  | some v => (.ok v, some v)
  | none =>
    match get_parts_list_once fs with
    | .ok v => (.ok v, some v)
    | .error e => (.error e, none)

/-- A sequence of `get_parts_list` calls, each observing its own filesystem
state (the filesystem may change between calls), threading the cache. -/
def get_parts_list_calls (cache : Option (List String)) :
    List PartsFs → List (Except String (List String)) × Option (List String)
  | [] => ([], cache)
  | fs :: rest =>
    let r := get_parts_list_call cache fs
    let t := get_parts_list_calls r.2 rest
    (r.1 :: t.1, t.2)

/-! ## Concrete hosts used by counterexamples and witnesses -/

/-- A host with one document "Doc" holding one object "Obj" whose
`PropertiesList` is ["Length"], where `setattr(obj, "Length", ...)` raises
ValueError("bad property") — the host side of the spec's Scenario 4. -/
def badPropHost : GuiHost :=
  { docs := [("Doc", ⟨[("Obj", ⟨["Length"], [], false⟩)]⟩)],
    setattrFails := fun o p _ =>
      if o == "Obj" && p == "Length" then some "bad property" else none,
    viewSetattrFails := fun _ _ _ => none }

/-! # Theorems -/

/-- A drain in which no WorkItem raises processes the whole request queue,
pushes exactly the non-None return values in execution order, lets no
exception escape, and re-arms the timer. -/
theorem process_gui_tasks_no_exn (q : List WItem)
    (respQ : List (CallerId × RVal)) (h : ∀ w ∈ q, w.isExn = false) :
    process_gui_tasks q respQ = ([], respQ ++ pushesOf q, none, true) := by
  induction q generalizing respQ with
  | nil => simp [process_gui_tasks, pushesOf]
  | cons w rest ih =>
    have hw := h w (List.mem_cons_self ..)
    have hrest : ∀ x ∈ rest, x.isExn = false :=
      fun x hx => h x (List.mem_cons_of_mem _ hx)
    cases hoc : w.outcome with
    | exn e => simp [WItem.isExn, hoc] at hw
    | ret v =>
      simp only [process_gui_tasks, hoc]
      rw [ih _ hrest]
      by_cases hv : v = RVal.vnone
      · simp [pushesOf, List.filterMap_cons, hoc, hv]
      · simp [pushesOf, List.filterMap_cons, hoc, hv, List.append_assoc]

/-- C1 counterexample: with two concurrent submitters on the token-free
twin queues, the interleaving "A submits, B submits, the pump drains, B's
get completes first, then A's" delivers A's ResultItem to B's wait and B's
ResultItem to A's wait — `await` does not filter by any correlation token,
it pops whatever is at the head of the shared response queue. -/
theorem C1_crosstalk_counterexample :
    (runSchedule [Ev.submit CallerId.A (TaskOutcome.ret RVal.vtrue),
        Ev.submit CallerId.B (TaskOutcome.ret RVal.vtrue),
        Ev.pump, Ev.get CallerId.B, Ev.get CallerId.A]).recvB =
      [(CallerId.A, RVal.vtrue)] ∧
    (runSchedule [Ev.submit CallerId.A (TaskOutcome.ret RVal.vtrue),
        Ev.submit CallerId.B (TaskOutcome.ret RVal.vtrue),
        Ev.pump, Ev.get CallerId.B, Ev.get CallerId.A]).recvA =
      [(CallerId.B, RVal.vtrue)] := by
  constructor <;> rfl

/-- Pairing invariant of the serialized round discipline: starting from
empty queues with correctly attributed histories, any sequence of
submit/pump/get rounds (with non-None closure results) keeps every received
item attributed to its receiver. -/
theorem runRounds_paired (rounds : List (CallerId × RVal)) (s : BState)
    (hq : s.reqQ = []) (hr : s.respQ = [])
    (ha : (s.recvA.all fun p => p.1 == CallerId.A) = true)
    (hb : (s.recvB.all fun p => p.1 == CallerId.B) = true)
    (hn : (rounds.all fun r => !(r.2 == RVal.vnone)) = true) :
    ((runRounds s rounds).recvA.all fun p => p.1 == CallerId.A) = true ∧
    ((runRounds s rounds).recvB.all fun p => p.1 == CallerId.B) = true := by
  induction rounds generalizing s with
  | nil => exact ⟨ha, hb⟩
  | cons r rest ih =>
    obtain ⟨c, v⟩ := r
    obtain ⟨rq, rs, ra, rb⟩ := s
    simp only at hq hr ha hb
    subst hq; subst hr
    simp only [List.all_cons, Bool.and_eq_true, Bool.not_eq_eq_eq_not,
      Bool.not_true, beq_eq_false_iff_ne, ne_eq] at hn
    obtain ⟨hv, hrest⟩ := hn
    have hround : runRound ⟨[], [], ra, rb⟩ c v =
        match c with
        | .A => ⟨[], [], ra ++ [(c, v)], rb⟩
        | .B => ⟨[], [], ra, rb ++ [(c, v)]⟩ := by
      cases c <;>
        simp [runRound, stepEv, process_gui_tasks, hv]
    cases c with
    | A =>
      simp only [runRounds, hround]
      exact ih _ rfl rfl (by simp [ha]) hb hrest
    | B =>
      simp only [runRounds, hround]
      exact ih _ rfl rfl ha (by simp [hb]) hrest

/-- C1 (corrected).  The source attaches no correlation token to queue
items: `C1_crosstalk_counterexample` shows two concurrent submitters
receiving each other's ResultItems.  What does hold is the amended claim:
when submissions are serialized — each caller's submit, the pump's drain and
that caller's blocking read complete before the next submission — every
ResultItem is delivered to the caller whose WorkItem produced it (for
WorkItems whose closures return a non-None value, so that one result is
pushed per item). -/
theorem C1_pairing_only_when_serialized (rounds : List (CallerId × RVal))
    (hn : (rounds.all fun r => !(r.2 == RVal.vnone)) = true) :
    ((runRounds BState.init rounds).recvA.all fun p => p.1 == CallerId.A) = true ∧
    ((runRounds BState.init rounds).recvB.all fun p => p.1 == CallerId.B) = true :=
  runRounds_paired rounds BState.init rfl rfl rfl rfl hn

/-- C1 witness: three serialized rounds — A, then B, then A again — each
caller receives only results attributed to itself. -/
theorem C1_pairing_only_when_serialized_witness :
    ((runRounds BState.init [(CallerId.A, RVal.vtrue), (CallerId.B, RVal.vstr "err"),
        (CallerId.A, RVal.vfalse)]).recvA.all fun p => p.1 == CallerId.A) = true ∧
    ((runRounds BState.init [(CallerId.A, RVal.vtrue), (CallerId.B, RVal.vstr "err"),
        (CallerId.A, RVal.vfalse)]).recvB.all fun p => p.1 == CallerId.B) = true :=
  C1_pairing_only_when_serialized
    [(CallerId.A, RVal.vtrue), (CallerId.B, RVal.vstr "err"), (CallerId.A, RVal.vfalse)]
    (by decide)

/-- C2 counterexample: the pump has no try/except, so a WorkItem whose
closure raises aborts the drain — no error ResultItem is pushed for it, the
exception escapes into the Qt timer callback, the next queued WorkItem is
left unprocessed, and the `QTimer.singleShot` re-arming line is never
reached. -/
theorem C2_counterexample :
    process_gui_tasks [⟨CallerId.A, TaskOutcome.exn "boom"⟩,
        ⟨CallerId.B, TaskOutcome.ret RVal.vtrue⟩] [] =
      ([⟨CallerId.B, TaskOutcome.ret RVal.vtrue⟩], [], some "boom", false) := by
  rfl

/-- C2 (corrected).  `process_gui_tasks` does not convert a raising WorkItem
into an error ResultItem: the first raising item aborts the drain after the
non-raising prefix has been processed normally — the prefix's non-None
results are pushed, the raising item contributes nothing to the response
queue, the items after it stay queued, the exception escapes, and the pump
is not re-armed. -/
theorem C2_exn_aborts_drain (pre post : List WItem) (c : CallerId)
    (e : String) (respQ : List (CallerId × RVal))
    (h : ∀ w ∈ pre, w.isExn = false) :
    process_gui_tasks (pre ++ ⟨c, TaskOutcome.exn e⟩ :: post) respQ =
      (post, respQ ++ pushesOf pre, some e, false) := by
  induction pre generalizing respQ with
  | nil => simp [process_gui_tasks, pushesOf]
  | cons w rest ih =>
    have hw := h w (List.mem_cons_self ..)
    have hrest : ∀ x ∈ rest, x.isExn = false :=
      fun x hx => h x (List.mem_cons_of_mem _ hx)
    cases hoc : w.outcome with
    | exn e2 => simp [WItem.isExn, hoc] at hw
    | ret v =>
      simp only [List.cons_append, process_gui_tasks, hoc, List.append_eq]
      rw [ih _ hrest]
      by_cases hv : v = RVal.vnone
      · simp [pushesOf, List.filterMap_cons, hoc, hv]
      · simp [pushesOf, List.filterMap_cons, hoc, hv, List.append_assoc]

/-- C2 witness: a concrete drain — one good item, one raising item, one
more good item — the good prefix is processed, the raising item kills the
drain, the trailing item stays queued and the pump is not re-armed. -/
theorem C2_exn_aborts_drain_witness :
    process_gui_tasks [⟨CallerId.A, TaskOutcome.ret RVal.vtrue⟩,
        ⟨CallerId.A, TaskOutcome.exn "boom"⟩,
        ⟨CallerId.B, TaskOutcome.ret RVal.vtrue⟩] [] =
      ([⟨CallerId.B, TaskOutcome.ret RVal.vtrue⟩],
        [(CallerId.A, RVal.vtrue)], some "boom", false) :=
  (C2_exn_aborts_drain [⟨CallerId.A, TaskOutcome.ret RVal.vtrue⟩]
    [⟨CallerId.B, TaskOutcome.ret RVal.vtrue⟩] CallerId.A "boom" []
    (by decide)).trans (by rfl)

/-- C3 counterexample: the pump pushes a ResultItem only when the closure's
return value is not None (`if res is not None`): a WorkItem whose closure
returns None is executed yet produces zero ResultItems — the drain ends
with an empty response queue. -/
theorem C3_counterexample :
    process_gui_tasks [⟨CallerId.A, TaskOutcome.ret RVal.vnone⟩] [] =
      ([], [], none, true) := by
  rfl

/-- C3 (corrected).  In a drain where no closure raises, the pump pushes
exactly one ResultItem, immediately and in execution order, for every
executed WorkItem whose closure returns a non-None value — and none for a
WorkItem whose closure returns None (`pushesOf` keeps exactly the non-None
returns). -/
theorem C3_one_result_per_non_none (q : List WItem)
    (respQ : List (CallerId × RVal)) (h : ∀ w ∈ q, w.isExn = false) :
    process_gui_tasks q respQ = ([], respQ ++ pushesOf q, none, true) :=
  process_gui_tasks_no_exn q respQ h

/-- C3 witness: a drain of three returning WorkItems — True, None, an error
string — pushes exactly two ResultItems, in order, skipping the None. -/
theorem C3_one_result_per_non_none_witness :
    process_gui_tasks [⟨CallerId.A, TaskOutcome.ret RVal.vtrue⟩,
        ⟨CallerId.B, TaskOutcome.ret RVal.vnone⟩,
        ⟨CallerId.B, TaskOutcome.ret (RVal.vstr "err")⟩] [] =
      ([], [(CallerId.A, RVal.vtrue), (CallerId.B, RVal.vstr "err")],
        none, true) :=
  (C3_one_result_per_non_none [⟨CallerId.A, TaskOutcome.ret RVal.vtrue⟩,
    ⟨CallerId.B, TaskOutcome.ret RVal.vnone⟩,
    ⟨CallerId.B, TaskOutcome.ret (RVal.vstr "err")⟩] []
    (by decide)).trans (by rfl)

/-- C4 counterexample: every bridge-routed RPC method's result wait is a
bare `rpc_response_queue.get()` — blocking with timeout=None — and such a
call never returns when no item arrives (a stalled GUI thread blocks the
submitter forever). -/
theorem C4_counterexample :
    (rpc_await_calls.all fun m => m.2.timeout == none && m.2.blocking) = true ∧
    get_call_returns queue_get_default false = false := by
  constructor <;> rfl

/-- C4 (corrected).  No bridge-routed wait supports a timeout: for every
result-wait call site of the RPC front, the wait returns control iff a
result arrives on the response queue; with a stalled GUI thread it blocks
forever. -/
theorem C4_wait_returns_iff_result_arrives (arrives : Bool) :
    (rpc_await_calls.all fun m => get_call_returns m.2 arrives == arrives) = true := by
  cases arrives <;> rfl

/-- When the document and object exist and the object has no References
attribute, `_edit_object_gui` always returns True to the pump — whatever
`set_object_property` does is reflected only in the console error log. -/
theorem edit_object_gui_ok (h : GuiHost) (dn onm : String) (doc : HostDoc)
    (obj : HostObj) (props : List (String × PValue))
    (hdoc : h.getDocument dn = some doc) (hobj : doc.getObject onm = some obj)
    (href : obj.hasReferencesAttr = false) :
    _edit_object_gui h dn onm props =
      (.vtrue, set_object_property h doc onm obj props) := by
  simp [_edit_object_gui, hdoc, hobj, href]

/-- C5 counterexample (the spec's Scenario 4 fails on the code): an
edit_object WorkItem whose property assignment raises
ValueError("bad property") does NOT yield `{success: false, error: "bad
property"}` — `set_object_property` catches the exception itself, logs
"Property 'Length' assignment error: bad property" to the console and
continues, so `_edit_object_gui` returns True and the caller receives
`{success: true, object_name: "Obj"}`. -/
theorem C5_counterexample :
    (edit_object badPropHost "Doc" "Obj"
        [("Properties", PValue.pdict [("Length", PValue.pint 5)])]).1 =
      ⟨true, some "Obj", none⟩ ∧
    (edit_object badPropHost "Doc" "Obj"
        [("Properties", PValue.pdict [("Length", PValue.pint 5)])]).2 =
      ["Property 'Length' assignment error: bad property"] := by
  exact ⟨by decide, by decide⟩

/-- C5 (corrected).  An exception raised by a property assignment inside
`set_object_property` is swallowed there (logged, loop continues) and the
caller receives `{success: true, object_name}`; the caller receives
`{success: false, error: msg}` only when `_edit_object_gui` itself raises
or fails — a missing document or a missing object (and likewise the
References pre-pass).  A subsequent unrelated WorkItem still succeeds: the
edit WorkItem returns (never raises), so the drain containing it and a
following WorkItem processes both and delivers both results. -/
theorem C5_property_error_swallowed (h : GuiHost) (dn onm : String)
    (properties : List (String × PValue)) :
    (∀ doc obj, h.getDocument dn = some doc → doc.getObject onm = some obj →
      obj.hasReferencesAttr = false →
      (edit_object h dn onm properties).1 = ⟨true, some onm, none⟩ ∧
      process_gui_tasks
        [⟨CallerId.A, TaskOutcome.ret (_edit_object_gui h dn onm
            ((dictGetD properties "Properties" (PValue.pdict [])).dictEntries)).1⟩,
         ⟨CallerId.B, TaskOutcome.ret RVal.vtrue⟩] [] =
        ([], [(CallerId.A, RVal.vtrue), (CallerId.B, RVal.vtrue)], none, true)) ∧
    (h.getDocument dn = none →
      (edit_object h dn onm properties).1 =
        ⟨false, none, some ("Document '" ++ dn ++ "' not found.\n")⟩) ∧
    (∀ doc, h.getDocument dn = some doc → doc.getObject onm = none →
      (edit_object h dn onm properties).1 =
        ⟨false, none, some ("Object '" ++ onm ++ "' not found in document '" ++
          dn ++ "'.\n")⟩) := by
  refine ⟨?_, ?_, ?_⟩
  · intro doc obj hdoc hobj href
    have hg := edit_object_gui_ok h dn onm doc obj
      ((dictGetD properties "Properties" (PValue.pdict [])).dictEntries)
      hdoc hobj href
    constructor
    · simp [edit_object, hg]
    · rw [hg]
      rfl
  · intro hd
    simp [edit_object, _edit_object_gui, hd]
  · intro doc hdoc hobj
    simp [edit_object, _edit_object_gui, hdoc, hobj]

/-- C6 (confirmed).  `verify_request` accepts a connection iff the caller's
IP parses and the parsed address lies within at least one network of the
configured allow-list; any other caller — matching no network, or with an
unparseable address — is rejected with a logged warning, and the connection
pipeline creates zero WorkItems for it (the per-connection gating before
dispatch is the stdlib server's contract, modelled in
`handle_connection`). -/
theorem C6_verify_request_iff (allowed : List IpNetwork) (client_ip : String)
    (nWork : Nat) :
    ((verify_request allowed client_ip).1 = true ↔
      ∃ a, ip_address_parse client_ip = some a ∧
        ∃ n ∈ allowed, addrInNetwork a n = true) ∧
    ((verify_request allowed client_ip).1 = false →
      (verify_request allowed client_ip).2 =
        ["MCP RPC: Rejected connection from " ++ client_ip] ∧
      handle_connection allowed client_ip nWork =
        (0, ["MCP RPC: Rejected connection from " ++ client_ip])) := by
  cases hp : ip_address_parse client_ip with
  | none => simp [verify_request, handle_connection, hp]
  | some a =>
    by_cases hany : allowed.any (addrInNetwork a) = true
    · constructor
      · simp only [verify_request, hp, hany, if_true]
        rw [List.any_eq_true] at hany
        simpa using hany
      · intro hfalse
        simp [verify_request, hp, hany] at hfalse
    · constructor
      · simp only [verify_request, hp, if_neg hany]
        constructor
        · intro hfalse
          exact absurd hfalse (by simp)
        · rintro ⟨a2, ha2, n, hn, hin⟩
          have haa : a = a2 := Option.some.inj ha2
          exact absurd (List.any_eq_true.mpr ⟨n, hn, haa ▸ hin⟩) hany
      · intro _
        simp [verify_request, handle_connection, hp, hany]

/-- The entry-validation loop of `validate_allowed_ips`, characterized:
folding `validateStep` appends exactly the stripped entries that parse to
the valid list, and one error message per stripped entry that does not. -/
theorem validate_foldl_spec (entries : List String)
    (acc : List String × List String) :
    entries.foldl validateStep acc =
      (acc.1 ++ (entries.map pyStrip).filter
        (fun e => (ip_network_parse e).isSome),
       acc.2 ++ (entries.map pyStrip).filterMap fun e =>
         if (ip_network_parse e).isSome then none
         else some ("Invalid IP/subnet: '" ++ e ++ "'")) := by
  induction entries generalizing acc with
  | nil => simp
  | cons e rest ih =>
    simp only [List.foldl_cons, List.map_cons, List.filter_cons,
      List.filterMap_cons]
    rw [ih]
    cases hp : ip_network_parse (pyStrip e) with
    | none => simp [validateStep, hp, List.append_assoc]
    | some net => simp [validateStep, hp, List.append_assoc]

/-- C7 counterexample: a configuration string that mixes two valid entries
with one malformed (empty) entry — "127.0.0.1,,192.168.1.0/24" — fails the
well-formedness regex, so `validate_allowed_ips` aborts the WHOLE list: the
valid list comes back empty with a single "Malformed list" message, and
`_parse_allowed_ips` yields an empty allow-list, although both
"127.0.0.1" and "192.168.1.0/24" are individually valid entries.  The
claimed behaviour — skip each malformed entry, keep exactly the valid ones,
never an empty list — does not hold for this input. -/
theorem C7_counterexample :
    validate_allowed_ips "127.0.0.1,,192.168.1.0/24" =
      ([],
       ["Malformed list — check for leading/trailing commas, double commas, or missing separators."]) ∧
    (ip_network_parse "127.0.0.1").isSome = true ∧
    (ip_network_parse "192.168.1.0/24").isSome = true ∧
    (_parse_allowed_ips "127.0.0.1,,192.168.1.0/24").1 = [] := by
  refine ⟨by decide, by decide, by decide, by decide⟩

/-- C7 (corrected).  Per-entry skipping holds only for input that passes the
global well-formedness pre-checks: for a non-blank string matching the
comma-separation regex, `validate_allowed_ips` returns exactly the stripped
entries that parse as an IP/CIDR network, plus one warning per entry that
does not — a mixed valid/invalid string such as
"not-an-ip,192.168.1.0/24" keeps the valid entry.  A string failing the
pre-checks (blank, leading/trailing/double commas, whitespace-only entries)
aborts the whole list to an empty allow-list with a single message
instead. -/
theorem C7_wellformed_entries_filtered (s : String)
    (h1 : ¬ pyStrip s = "") (h2 : commaSepMatch s = true) :
    validate_allowed_ips s =
      (((pySplit ',' s).map pyStrip).filter
        (fun e => (ip_network_parse e).isSome),
       ((pySplit ',' s).map pyStrip).filterMap fun e =>
         if (ip_network_parse e).isSome then none
         else some ("Invalid IP/subnet: '" ++ e ++ "'")) := by
  have hs : ¬ s = "" := fun h => h1 (by rw [h]; rfl)
  simp only [validate_allowed_ips]
  rw [if_neg (by tauto), if_neg (by simp [h2])]
  simpa using validate_foldl_spec (pySplit ',' s) ([], [])

/-- C7 witness: the spec's Scenario 5 string "not-an-ip,192.168.1.0/24"
passes the pre-checks and yields exactly the one valid entry plus one
warning about the invalid one. -/
theorem C7_wellformed_entries_filtered_witness :
    validate_allowed_ips "not-an-ip,192.168.1.0/24" =
      (["192.168.1.0/24"], ["Invalid IP/subnet: 'not-an-ip'"]) :=
  (C7_wellformed_entries_filtered "not-an-ip,192.168.1.0/24"
    (by decide) (by decide)).trans (by decide)

/-- C8 (confirmed).  Screenshot capture is two-phase: when the capability
check comes back falsy only that one WorkItem was submitted, no temporary
file was created, and the method returns None (fail soft, not an error).
When the check passes, a second WorkItem is submitted; on True the method
returns the base64 encoding of the temporary file's bytes; on anything else
it returns None — and in every outcome the temporary file does not survive
the call. -/
theorem C8_two_phase_screenshot (h : ScreenshotHost) :
    (rvalTruthy h.checkResult = false →
      get_active_screenshot h =
        { result := none, submittedTasks := 1, tmpCreated := false,
          tmpRemains := false }) ∧
    (rvalTruthy h.checkResult = true → h.saveResult = RVal.vtrue →
      get_active_screenshot h =
        { result := some (b64encode h.imageBytes), submittedTasks := 2,
          tmpCreated := true, tmpRemains := false }) ∧
    (rvalTruthy h.checkResult = true → ¬ h.saveResult = RVal.vtrue →
      get_active_screenshot h =
        { result := none, submittedTasks := 2, tmpCreated := true,
          tmpRemains := false }) ∧
    (get_active_screenshot h).tmpRemains = false := by
  by_cases hc : rvalTruthy h.checkResult = true
  · cases hs : h.saveResult <;>
      simp_all [get_active_screenshot]
  · simp_all [get_active_screenshot]

/-- C9 (confirmed).  `insert_part_from_library` raises ValueError before
any filesystem access whenever the normalized join of the library directory
and the relative path does not stay strictly inside the library directory,
or does not end in ".FCStd"; consequently every filesystem access the
function performs — the existence probe and the merge — touches only a path
strictly inside the library directory ending in ".FCStd", and a successful
merge's path satisfies both. -/
theorem C9_traversal_and_extension_guard (appDataDir : String)
    (fsHas : String → Bool) (rel : String) :
    (¬ (startswith (resolved_part_path appDataDir rel)
          (normpath (parts_lib_path appDataDir) ++ "/") = true ∧
        endswith (resolved_part_path appDataDir rel) ".FCStd" = true) →
      (insert_part_from_library appDataDir fsHas rel).2 = [] ∧
      ∃ m, (insert_part_from_library appDataDir fsHas rel).1 =
        .error (.valueErr m)) ∧
    (∀ op ∈ (insert_part_from_library appDataDir fsHas rel).2,
      startswith op.path (normpath (parts_lib_path appDataDir) ++ "/") = true ∧
      endswith op.path ".FCStd" = true) ∧
    (∀ merged, (insert_part_from_library appDataDir fsHas rel).1 = .ok merged →
      startswith merged (normpath (parts_lib_path appDataDir) ++ "/") = true ∧
      endswith merged ".FCStd" = true) := by
  unfold insert_part_from_library
  by_cases h1 : startswith (resolved_part_path appDataDir rel)
      (normpath (parts_lib_path appDataDir) ++ "/") = true
  · by_cases h2 : endswith (resolved_part_path appDataDir rel) ".FCStd" = true
    · by_cases h3 : fsHas (resolved_part_path appDataDir rel) = true
      · refine ⟨fun hcontra => absurd ⟨h1, h2⟩ hcontra, ?_, ?_⟩
        · intro op hop
          simp [h1, h2, h3] at hop
          rcases hop with rfl | rfl
          · exact ⟨h1, h2⟩
          · exact ⟨h1, h2⟩
        · intro merged hm
          simp [h1, h2, h3] at hm
          subst hm
          exact ⟨h1, h2⟩
      · refine ⟨fun hcontra => absurd ⟨h1, h2⟩ hcontra, ?_, ?_⟩
        · intro op hop
          simp only [h1, h2, h3] at hop
          simp at hop
          subst hop
          exact ⟨h1, h2⟩
        · intro merged hm
          simp [h1, h2, h3] at hm
    · refine ⟨fun _ => ?_, ?_, ?_⟩
      · simp [h1, h2]
      · intro op hop
        simp [h1, h2] at hop
      · intro merged hm
        simp [h1, h2] at hm
  · refine ⟨fun _ => ?_, ?_, ?_⟩
    · simp [h1]
    · intro op hop
      simp [h1] at hop
    · intro merged hm
      simp [h1] at hm

/-- A sequence of `get_parts_list` calls with an already-populated cache
returns the cached list on every call and leaves the cache unchanged,
whatever the filesystem does. -/
theorem get_parts_list_calls_cached (v : List String) (l : List PartsFs) :
    get_parts_list_calls (some v) l = (l.map fun _ => .ok v, some v) := by
  induction l with
  | nil => rfl
  | cons fs rest ih => simp [get_parts_list_calls, get_parts_list_call, ih]

/-- C10 (confirmed).  After a first successful call, every later
`get_parts_list` call returns the identical cached list even when the
filesystem changes in between (the directory walk ran once, on the first
call's filesystem); a first call that raises (library directory missing)
caches nothing, so the remaining calls behave exactly like a fresh call
sequence — only raising calls are retried. -/
theorem C10_cache_sticks_after_first_success (fs : PartsFs)
    (rest : List PartsFs) :
    (fs.libPresent = true →
      (get_parts_list_calls none (fs :: rest)).1 =
        (fs :: rest).map fun _ => .ok (walkFCStd fs.files)) ∧
    (fs.libPresent = false →
      get_parts_list_calls none (fs :: rest) =
        (.error "Not found: parts_library" :: (get_parts_list_calls none rest).1,
         (get_parts_list_calls none rest).2)) := by
  constructor
  · intro hp
    simp [get_parts_list_calls, get_parts_list_call, get_parts_list_once, hp,
      get_parts_list_calls_cached]
  · intro hp
    simp [get_parts_list_calls, get_parts_list_call, get_parts_list_once, hp]
